import Mathlib

/-!
# Unified Memory Framework: OS memory provider (Linux) and library loader

A shallow embedding of `src/provider/provider_os_memory_linux.c` and
`src/utils/utils_load_library.{c,h}`.

Conventions of the embedding:
* `unsigned` values are natural numbers below `2 ^ 32`; bitwise complement of
  `n` is `UINT_MAX ^^^ n`.
* `int` values are integers; `size_t` values and addresses are natural numbers.
* An output parameter `unsigned *out` is passed as the value stored before the
  call and returned as the value stored after it.
* Operating-system entry points (`mmap`, `madvise`) are fields of an abstract
  kernel acting on an arbitrary kernel state.
-/

namespace UMF

/-! ## Constants -/

/-- Largest value of a C `unsigned` (32 bits). -/
def UINT_MAX : Nat := 4294967295

/-- Linux `PROT_NONE` from `<sys/mman.h>`. -/
def PROT_NONE : Nat := 0
/-- Linux `PROT_READ` from `<sys/mman.h>`. -/
def PROT_READ : Nat := 1
/-- Linux `PROT_WRITE` from `<sys/mman.h>`. -/
def PROT_WRITE : Nat := 2
/-- Linux `PROT_EXEC` from `<sys/mman.h>`. -/
def PROT_EXEC : Nat := 4

/-- Modelled from the spec: the result enumeration `umf_result_t` (its header
`umf/base.h` is absent); the constructors are the status codes of the spec's
result taxonomy. -/
inductive umf_result_t where
  | UMF_RESULT_SUCCESS
  | UMF_RESULT_ERROR_OUT_OF_HOST_MEMORY
  | UMF_RESULT_ERROR_INVALID_ARGUMENT
  | UMF_RESULT_ERROR_NOT_SUPPORTED
  | UMF_RESULT_ERROR_UNKNOWN
  deriving DecidableEq, Repr

open umf_result_t

/-- Modelled from the spec: `UMF_PROTECTION_NONE` of the absent header
`umf/providers/provider_os_memory.h`; the spec names four recognized single
bits (none, read, write, execute), taken here in that order from bit 0. -/
def UMF_PROTECTION_NONE : Nat := 1 <<< 0
/-- Modelled from the spec: `UMF_PROTECTION_READ`, the second recognized bit. -/
def UMF_PROTECTION_READ : Nat := 1 <<< 1
/-- Modelled from the spec: `UMF_PROTECTION_WRITE`, the third recognized bit. -/
def UMF_PROTECTION_WRITE : Nat := 1 <<< 2
/-- Modelled from the spec: `UMF_PROTECTION_EXEC`, the fourth recognized bit. -/
def UMF_PROTECTION_EXEC : Nat := 1 <<< 3
/-- Modelled from the spec: `UMF_PROTECTION_MAX`, the enumerator that closes the
protection flags, one past `UMF_PROTECTION_EXEC`; it bounds the single bits the
generic translator visits. -/
def UMF_PROTECTION_MAX : Nat := (1 <<< 3) + 1

/-! ## Protection flag translation -/

/-- Source: `os_translate_mem_protection_one_flag`
(`provider_os_memory_linux.c`, lines 16-33). The second argument is the value
held by `*out_protection` before the call; the second component of the result
is the value held after it. -/
def os_translate_mem_protection_one_flag (in_protection : Nat)
    (out_protection : Nat) : umf_result_t × Nat :=
  if in_protection = UMF_PROTECTION_NONE then (UMF_RESULT_SUCCESS, PROT_NONE)
  else if in_protection = UMF_PROTECTION_READ then (UMF_RESULT_SUCCESS, PROT_READ)
  else if in_protection = UMF_PROTECTION_WRITE then (UMF_RESULT_SUCCESS, PROT_WRITE)
  else if in_protection = UMF_PROTECTION_EXEC then (UMF_RESULT_SUCCESS, PROT_EXEC)
  else (UMF_RESULT_ERROR_INVALID_ARGUMENT, out_protection)

/-- Modelled from the spec: the loop of the generic translator
`os_translate_flags` (defined in the absent `provider_os_memory.c`). The spec
describes it as "translate each set bit, OR together, fail on any unrecognized
bit": the single bits `n = 1, 2, 4, ...` below `max` are visited in turn; a set
bit is translated by `translate_flag`, whose failure ends the translation with
that result, and whose success ORs the translated flag into `out_f` and clears
the bit in `in_flags`. The result is the pair of the bits left over and the
accumulated flags. The first argument bounds the number of iterations. -/
def os_translate_flags_loop (translate_flag : Nat → Nat → umf_result_t × Nat)
    (max : Nat) : Nat → Nat → Nat → Nat → Except umf_result_t (Nat × Nat)
  | 0, _, in_flags, out_f => .ok (in_flags, out_f)
  | fuel + 1, n, in_flags, out_f =>
    if n < max then
      if in_flags &&& n ≠ 0 then
        match translate_flag n 0 with
        | (UMF_RESULT_SUCCESS, flag) =>
          os_translate_flags_loop translate_flag max fuel (2 * n)
            (in_flags &&& (UINT_MAX ^^^ n)) (out_f ||| flag)
        | (result, _) => .error result
      else os_translate_flags_loop translate_flag max fuel (2 * n) in_flags out_f
    else .ok (in_flags, out_f)

/-- Modelled from the spec: the generic translator `os_translate_flags`
(defined in the absent `provider_os_memory.c`; only its call is in the source).
After the loop over the single bits below `max`, any bit still set in
`in_flags` is unrecognized and the translation fails with invalid-argument,
leaving `*out_flags` as it was; otherwise the accumulated flags are stored.
An `unsigned` has 32 single bits. -/
def os_translate_flags (in_flags max : Nat)
    (translate_flag : Nat → Nat → umf_result_t × Nat) (out_flags : Nat) :
    umf_result_t × Nat :=
  match os_translate_flags_loop translate_flag max 32 1 in_flags 0 with
  | .error result => (result, out_flags)
  | .ok (rest, out_f) =>
    if rest ≠ 0 then (UMF_RESULT_ERROR_INVALID_ARGUMENT, out_flags)
    else (UMF_RESULT_SUCCESS, out_f)

/-- Source: `os_translate_mem_protection_flags`
(`provider_os_memory_linux.c`, lines 35-41). -/
def os_translate_mem_protection_flags (in_protection : Nat)
    (out_protection : Nat) : umf_result_t × Nat :=
  os_translate_flags in_protection UMF_PROTECTION_MAX
    os_translate_mem_protection_one_flag out_protection

/-- The abstract protection value holding exactly the chosen flags. -/
def protection_of (none read write exec : Bool) : Nat :=
  (if none then UMF_PROTECTION_NONE else 0) |||
  (if read then UMF_PROTECTION_READ else 0) |||
  (if write then UMF_PROTECTION_WRITE else 0) |||
  (if exec then UMF_PROTECTION_EXEC else 0)

/-- The bitwise OR of the OS bits that correspond to the chosen flags. -/
def os_protection_of (none read write exec : Bool) : Nat :=
  (if none then PROT_NONE else 0) |||
  (if read then PROT_READ else 0) |||
  (if write then PROT_WRITE else 0) |||
  (if exec then PROT_EXEC else 0)

/-- The four recognized protection bits together. -/
def UMF_PROTECTION_RECOGNIZED : Nat :=
  UMF_PROTECTION_NONE ||| UMF_PROTECTION_READ ||| UMF_PROTECTION_WRITE |||
    UMF_PROTECTION_EXEC

/-- The value of `in_flags` after one loop iteration at bit `n`: the bit is
cleared when it was set. -/
def clear_if_set (x n : Nat) : Nat := if x &&& n ≠ 0 then x &&& (UINT_MAX ^^^ n) else x

/-- The value of `out_f` after one loop iteration at bit `n` whose translation
is `flag`. -/
def or_if_set (x n out_f flag : Nat) : Nat := if x &&& n ≠ 0 then out_f ||| flag else out_f

/-- The bits of a protection value left over after the four iterations of the
translation loop. -/
def protection_rest (x : Nat) : Nat :=
  clear_if_set (clear_if_set (clear_if_set (clear_if_set x 1) 2) 4) 8

/-- The OS bits accumulated by the four iterations of the translation loop. -/
def protection_acc (x : Nat) : Nat :=
  or_if_set (clear_if_set (clear_if_set (clear_if_set x 1) 2) 4) 8
    (or_if_set (clear_if_set (clear_if_set x 1) 2) 4
      (or_if_set (clear_if_set x 1) 2 (or_if_set x 1 0 PROT_NONE) PROT_READ) PROT_WRITE)
    PROT_EXEC

/-! ## Purge advice translation -/

/-- Linux `MADV_DONTNEED` from `<sys/mman.h>`. -/
def MADV_DONTNEED : Int := 4
/-- Linux `MADV_FREE` from `<sys/mman.h>`. -/
def MADV_FREE : Int := 8

/-- Modelled from the spec: `UMF_PURGE_LAZY`, the first enumerator of the
two-valued advice enum `umf_purge_advise_t` (its header is absent); enumerators
are numbered in declaration order. -/
def UMF_PURGE_LAZY : Int := 0
/-- Modelled from the spec: `UMF_PURGE_FORCE`, the second enumerator of the
two-valued advice enum `umf_purge_advise_t`. -/
def UMF_PURGE_FORCE : Int := 1

/-- How a call of `os_translate_purge_advise` ends: by the `return` of one of
the `switch` cases, or by falling out of the `switch` onto `assert(0)`, after
which (assertions compiled out) the fallback value is returned. -/
inductive purge_advise_outcome where
  | returned (code : Int)
  | assert_reached (fallback : Int)
  deriving DecidableEq, Repr

open purge_advise_outcome

/-- Source: `os_translate_purge_advise`
(`provider_os_memory_linux.c`, lines 43-52). -/
def os_translate_purge_advise (advise : Int) : purge_advise_outcome :=
  if advise = UMF_PURGE_LAZY then returned MADV_FREE
  else if advise = UMF_PURGE_FORCE then returned MADV_DONTNEED
  else assert_reached (-1)

/-! ## The operating system -/

/-- The null address. -/
def NULL : Nat := 0
/-- Linux `MAP_FAILED`, the address `(void *)-1` on a 64-bit machine. -/
def MAP_FAILED : Nat := 2 ^ 64 - 1
/-- Linux `MAP_SHARED` from `<sys/mman.h>`. -/
def MAP_SHARED : Nat := 1
/-- Linux `MAP_PRIVATE` from `<sys/mman.h>`. -/
def MAP_PRIVATE : Nat := 2
/-- Linux `MAP_ANONYMOUS` from `<sys/mman.h>`. -/
def MAP_ANONYMOUS : Nat := 32

/-- The six arguments of one `mmap` call. -/
structure mmap_call where
  addr : Nat
  length : Nat
  prot : Int
  flags : Nat
  fd : Int
  offset : Int
  deriving DecidableEq, Repr

/-- The three arguments of one `madvise` call. -/
structure madvise_call where
  addr : Nat
  length : Nat
  advice : Int
  deriving DecidableEq, Repr

/-- The operating system as seen by the provider: each entry point takes the
kernel state and its arguments and gives the returned value and the next
kernel state. -/
structure Kernel (σ : Type) where
  mmap : σ → mmap_call → Nat × σ
  madvise : σ → madvise_call → Int × σ

/-- One system call as written to a log. -/
inductive syscall where
  | mmap (args : mmap_call)
  | madvise (args : madvise_call)
  deriving DecidableEq, Repr

/-- A kernel whose state is the log of the calls made so far; the value each
call returns is chosen by the given functions from the log and the arguments. -/
def logging_kernel (mmap_ret : List syscall → mmap_call → Nat)
    (madvise_ret : List syscall → madvise_call → Int) : Kernel (List syscall) where
  mmap := fun log args => (mmap_ret log args, log ++ [syscall.mmap args])
  madvise := fun log args => (madvise_ret log args, log ++ [syscall.madvise args])

/-- The request `os_mmap` hands to `mmap` (line 57). -/
def os_mmap_request (hint_addr length : Nat) (prot : Int) : mmap_call :=
  ⟨hint_addr, length, prot, MAP_ANONYMOUS ||| MAP_PRIVATE, -1, 0⟩

/-- Source: `os_mmap` (`provider_os_memory_linux.c`, lines 54-62). -/
def os_mmap {σ : Type} (k : Kernel σ) (s : σ) (hint_addr length : Nat) (prot : Int) :
    Nat × σ :=
  let r := k.mmap s ⟨hint_addr, length, prot, MAP_ANONYMOUS ||| MAP_PRIVATE, -1, 0⟩
  if r.1 = MAP_FAILED then (NULL, r.2) else (r.1, r.2)

/-- Source: `os_purge` (`provider_os_memory_linux.c`, lines 68-70). With
assertions enabled (`ndebug = false`) an advice outside the enum aborts in
`os_translate_purge_advise` and no result is produced. -/
def os_purge {σ : Type} (k : Kernel σ) (ndebug : Bool) (s : σ) (addr length : Nat)
    (advice : Int) : Option (Int × σ) :=
  match os_translate_purge_advise advice with
  | returned code => some (k.madvise s ⟨addr, length, code⟩)
  | assert_reached fallback =>
    if ndebug then some (k.madvise s ⟨addr, length, fallback⟩) else none

/-! ## The OS memory provider: configuration and initialization -/

/-- Modelled from the spec: the NUMA placement modes of the absent header
`umf/providers/provider_os_memory.h`, as enumerated in the spec's data model. -/
inductive umf_numa_mode_t where
  | UMF_NUMA_MODE_DEFAULT
  | UMF_NUMA_MODE_BIND
  | UMF_NUMA_MODE_INTERLEAVE
  | UMF_NUMA_MODE_PREFERRED
  | UMF_NUMA_MODE_LOCAL
  deriving DecidableEq, Repr

open umf_numa_mode_t

/-- Modelled from the spec: the provider configuration
`umf_os_memory_provider_params_t` (declared in the absent header): protection
flags, NUMA placement mode, ordered node list (`numa_list` with its
`numa_list_len`), and partition size in bytes (0 means one native page). -/
structure umf_os_memory_provider_params_t where
  protection : Nat
  numa_mode : umf_numa_mode_t
  numa_list : List Nat
  part_size : Nat
  deriving DecidableEq, Repr

/-- Modelled from the spec: the mode against node-list check of the absent
`provider_os_memory.c`. "DEFAULT and LOCAL modes require an empty node list;
BIND and INTERLEAVE modes require a non-empty node list; PREFERRED tolerates
either"; a violation is an invalid-argument error. -/
def validate_numa_mode (mode : umf_numa_mode_t) (numa_list : List Nat) : umf_result_t :=
  match mode with
  | UMF_NUMA_MODE_DEFAULT | UMF_NUMA_MODE_LOCAL =>
    if numa_list.length = 0 then UMF_RESULT_SUCCESS else UMF_RESULT_ERROR_INVALID_ARGUMENT
  | UMF_NUMA_MODE_BIND | UMF_NUMA_MODE_INTERLEAVE =>
    if numa_list.length = 0 then UMF_RESULT_ERROR_INVALID_ARGUMENT else UMF_RESULT_SUCCESS
  | UMF_NUMA_MODE_PREFERRED => UMF_RESULT_SUCCESS

/-- Modelled from the spec: a provider instance in state Ready, holding its
immutable configuration with the protection already translated to OS bits. -/
structure os_memory_provider_t where
  protection : Nat
  numa_mode : umf_numa_mode_t
  numa_list : List Nat
  part_size : Nat
  deriving DecidableEq, Repr

/-- Modelled from the spec: the initializer of the OS memory provider (absent
`provider_os_memory.c`). Validation runs in the order the spec gives: (1) the
protection flags must translate, (2) the mode and the node list must agree,
(3) for any mode besides DEFAULT the NUMA library must be available, else the
"NUMA unsupported" error. Only on success is an instance produced. -/
def os_provider_init (numa_available : Bool) (params : umf_os_memory_provider_params_t) :
    umf_result_t × Option os_memory_provider_t :=
  match os_translate_mem_protection_flags params.protection 0 with
  | (UMF_RESULT_SUCCESS, prot) =>
    match validate_numa_mode params.numa_mode params.numa_list with
    | UMF_RESULT_SUCCESS =>
      if params.numa_mode ≠ UMF_NUMA_MODE_DEFAULT ∧ numa_available = false then
        (UMF_RESULT_ERROR_NOT_SUPPORTED, none)
      else
        (UMF_RESULT_SUCCESS,
          some ⟨prot, params.numa_mode, params.numa_list, params.part_size⟩)
    | result => (result, none)
  | (result, _) => (result, none)

/-- Modelled from the spec: the part of the provider operation table used at
creation, the operation that sets a provider up. -/
structure umf_memory_provider_ops_t where
  init : umf_os_memory_provider_params_t → umf_result_t × Option os_memory_provider_t

/-- Modelled from the spec: `umfOsMemoryProviderOps`, the operation table of the
OS memory provider; whether the system NUMA library resolves is a fact of the
process environment. -/
def umfOsMemoryProviderOps (numa_available : Bool) : umf_memory_provider_ops_t :=
  ⟨os_provider_init numa_available⟩

/-- Modelled from the spec: `umfMemoryProviderCreate`, the create operation of
the generic interface (absent from the sources; the tests call it). It
dispatches to the backend initializer and hands out a handle only on success:
"it must leave no partially-constructed handle visible on failure". The handle
is `none` when null. -/
def umfMemoryProviderCreate (ops : umf_memory_provider_ops_t)
    (params : umf_os_memory_provider_params_t) :
    umf_result_t × Option os_memory_provider_t :=
  match ops.init params with
  | (UMF_RESULT_SUCCESS, some provider) => (UMF_RESULT_SUCCESS, some provider)
  | (UMF_RESULT_SUCCESS, none) => (UMF_RESULT_ERROR_UNKNOWN, none)
  | (result, _) => (result, none)

/-! ## Page size query -/

/-- Linux `MAP_FIXED` from `<sys/mman.h>`. -/
def MAP_FIXED : Nat := 16

/-- Linux `_SC_PAGE_SIZE` (`_SC_PAGESIZE`) from `<unistd.h>`. -/
def _SC_PAGE_SIZE : Int := 30

/-- Largest value of a `size_t` on a 64-bit machine, plus one. -/
def SIZE_MODULUS : Nat := 2 ^ 64

/-- Source: `os_get_page_size` (`provider_os_memory_linux.c`, line 66). The
`long` that `sysconf` returns is converted to `size_t`. -/
def os_get_page_size (sysconf : Int → Int) : Nat :=
  (sysconf _SC_PAGE_SIZE % (SIZE_MODULUS : Int)).toNat

/-! ## The dynamic symbol loader -/

/-- The flag `UMF_UTIL_OPEN_LIBRARY_GLOBAL` (`utils_load_library.h`, line 18). -/
def UMF_UTIL_OPEN_LIBRARY_GLOBAL : Int := 1
/-- Linux `RTLD_LAZY` from `<dlfcn.h>`. -/
def RTLD_LAZY : Int := 1
/-- Linux `RTLD_GLOBAL` from `<dlfcn.h>`. -/
def RTLD_GLOBAL : Int := 256
/-- Linux `RTLD_DEFAULT` from `<dlfcn.h>`, the pseudo-handle `((void *) 0)` of
the default symbol search order. -/
def RTLD_DEFAULT : Nat := 0

/-- The dynamic linker as seen by the loader: `dlopen` and `dlsym` take the
linker state and their arguments and give the returned address and the next
state. A `const char *` that may be null is an optional string. -/
structure DynamicLinker (σ : Type) where
  dlopen : σ → Option String → Int → Nat × σ
  dlsym : σ → Nat → String → Nat × σ

/-- Source: the flags `util_open_library` computes
(`utils_load_library.c`, lines 44-47). -/
def util_open_library_flags (userFlags : Int) : Int :=
  if Int.land userFlags UMF_UTIL_OPEN_LIBRARY_GLOBAL ≠ 0 then Int.lor RTLD_LAZY RTLD_GLOBAL
  else RTLD_LAZY

/-- Source: Linux `util_open_library` (`utils_load_library.c`, lines 43-49). -/
def util_open_library {σ : Type} (dl : DynamicLinker σ) (s : σ) (filename : Option String)
    (userFlags : Int) : Nat × σ :=
  dl.dlopen s filename (util_open_library_flags userFlags)

/-- Source: the flags the inline `util_open_library` of the header computes
(`utils_load_library.h`, lines 63-66). -/
def util_open_library_header_flags (userFlags : Int) : Int :=
  if Int.land userFlags UMF_UTIL_OPEN_LIBRARY_GLOBAL ≠ 0 then Int.lor RTLD_LAZY RTLD_GLOBAL
  else RTLD_LAZY

/-- Source: Linux inline `util_open_library` (`utils_load_library.h`,
lines 62-68). -/
def util_open_library_header {σ : Type} (dl : DynamicLinker σ) (s : σ)
    (filename : Option String) (userFlags : Int) : Nat × σ :=
  dl.dlopen s filename (util_open_library_header_flags userFlags)

/-- Source: Linux `util_get_symbol_addr` (`utils_load_library.c`, lines 53-60). -/
def util_get_symbol_addr {σ : Type} (dl : DynamicLinker σ) (s : σ) (handle : Nat)
    (symbol : String) (_libname : Option String) : Nat × σ :=
  dl.dlsym s (if handle = NULL then RTLD_DEFAULT else handle) symbol

/-- Source: Linux inline `util_get_symbol_addr` (`utils_load_library.h`,
lines 72-79). -/
def util_get_symbol_addr_header {σ : Type} (dl : DynamicLinker σ) (s : σ) (handle : Nat)
    (symbol : String) (_libname : Option String) : Nat × σ :=
  dl.dlsym s (if handle = NULL then RTLD_DEFAULT else handle) symbol

/-- A linker whose state is the log of the `dlsym` and `dlopen` requests made so
far, each written as handle or flags with the name; the returned addresses are
chosen by the given functions. -/
def logging_linker (dlopen_ret : Option String → Int → Nat) (dlsym_ret : Nat → String → Nat) :
    DynamicLinker (List (Int × Option String)) where
  dlopen := fun log filename flags => (dlopen_ret filename flags, log ++ [(flags, filename)])
  dlsym := fun log handle symbol =>
    (dlsym_ret handle symbol, log ++ [((handle : Int), some symbol)])

/-! ## Protection flag translation: proofs -/

/-- Clearing one recognized bit leaves the bits above the recognized ones as
they were. -/
theorem clear_bit_keeps_rest (x n : Nat) (hn : n = 1 ∨ n = 2 ∨ n = 4 ∨ n = 8) :
    (x &&& (UINT_MAX ^^^ n)) &&& (UINT_MAX ^^^ UMF_PROTECTION_RECOGNIZED) =
      x &&& (UINT_MAX ^^^ UMF_PROTECTION_RECOGNIZED) := by
  rw [Nat.and_assoc]
  rcases hn with h | h | h | h <;> subst h <;> rfl

/-- One iteration of the translation loop at a recognized protection bit. -/
theorem loop_step_recognized (fuel n x out_f : Nat) (hn : n = 1 ∨ n = 2 ∨ n = 4 ∨ n = 8) :
    os_translate_flags_loop os_translate_mem_protection_one_flag UMF_PROTECTION_MAX
        (fuel + 1) n x out_f =
      os_translate_flags_loop os_translate_mem_protection_one_flag UMF_PROTECTION_MAX
        fuel (2 * n) (clear_if_set x n)
        (or_if_set x n out_f (os_translate_mem_protection_one_flag n 0).2) := by
  unfold clear_if_set or_if_set
  rcases hn with h | h | h | h <;> subst h <;>
    simp [os_translate_flags_loop, os_translate_mem_protection_one_flag, UMF_PROTECTION_MAX,
      UMF_PROTECTION_NONE, UMF_PROTECTION_READ, UMF_PROTECTION_WRITE, UMF_PROTECTION_EXEC] <;>
    split_ifs <;> rfl

/-- The translation loop stops at the first bit not below `UMF_PROTECTION_MAX`. -/
theorem loop_stop (fuel x out_f : Nat) :
    os_translate_flags_loop os_translate_mem_protection_one_flag UMF_PROTECTION_MAX
        fuel 16 x out_f = .ok (x, out_f) := by
  cases fuel <;> simp [os_translate_flags_loop, UMF_PROTECTION_MAX]

/-- The translation loop on a protection value runs to its end within its
bound and gives the left-over bits and the accumulated OS bits. -/
theorem loop_protection (x : Nat) :
    os_translate_flags_loop os_translate_mem_protection_one_flag UMF_PROTECTION_MAX 32 1 x 0
      = .ok (protection_rest x, protection_acc x) := by
  rw [loop_step_recognized 31 1 _ _ (by simp), loop_step_recognized 30 2 _ _ (by simp),
      loop_step_recognized 29 4 _ _ (by simp), loop_step_recognized 28 8 _ _ (by simp),
      loop_stop]
  rfl

/-- One loop iteration leaves the bits above the recognized ones as they were. -/
theorem clear_if_set_keeps_rest (x n : Nat) (hn : n = 1 ∨ n = 2 ∨ n = 4 ∨ n = 8) :
    clear_if_set x n &&& (UINT_MAX ^^^ UMF_PROTECTION_RECOGNIZED) =
      x &&& (UINT_MAX ^^^ UMF_PROTECTION_RECOGNIZED) := by
  unfold clear_if_set
  split_ifs
  · exact clear_bit_keeps_rest x n hn
  · rfl

/-- The whole loop leaves the bits above the recognized ones as they were. -/
theorem protection_rest_keeps_rest (x : Nat) :
    protection_rest x &&& (UINT_MAX ^^^ UMF_PROTECTION_RECOGNIZED) =
      x &&& (UINT_MAX ^^^ UMF_PROTECTION_RECOGNIZED) := by
  unfold protection_rest
  rw [clear_if_set_keeps_rest _ 8 (by simp), clear_if_set_keeps_rest _ 4 (by simp),
    clear_if_set_keeps_rest _ 2 (by simp), clear_if_set_keeps_rest _ 1 (by simp)]

/-- The protection translator in closed form. -/
theorem os_translate_mem_protection_flags_eq (x out : Nat) :
    os_translate_mem_protection_flags x out =
      if protection_rest x ≠ 0 then (UMF_RESULT_ERROR_INVALID_ARGUMENT, out)
      else (UMF_RESULT_SUCCESS, protection_acc x) := by
  unfold os_translate_mem_protection_flags os_translate_flags
  rw [loop_protection]

/-- C1: for NONE alone, and for every non-empty combination of READ, WRITE and
EXEC, the protection translator returns success and stores exactly the bitwise
OR of the corresponding OS bits. -/
theorem os_translate_mem_protection_flags_valid (none read write exec : Bool)
    (out_protection : Nat)
    (h : (none = true ∧ read = false ∧ write = false ∧ exec = false) ∨
      (none = false ∧ (read = true ∨ write = true ∨ exec = true))) :
    os_translate_mem_protection_flags (protection_of none read write exec) out_protection =
      (UMF_RESULT_SUCCESS, os_protection_of none read write exec) := by
  rw [os_translate_mem_protection_flags_eq]
  revert h
  cases none <;> cases read <;> cases write <;> cases exec <;> intro _ <;> rfl

/-- Witness of C1 at READ|WRITE: the translation succeeds with
PROT_READ|PROT_WRITE. -/
theorem os_translate_mem_protection_flags_valid_witness :
    os_translate_mem_protection_flags (UMF_PROTECTION_READ ||| UMF_PROTECTION_WRITE) 77 =
      (UMF_RESULT_SUCCESS, PROT_READ ||| PROT_WRITE) :=
  os_translate_mem_protection_flags_valid false true true false 77
    (Or.inr ⟨rfl, Or.inl rfl⟩)

/-- C2: a protection value with a bit set outside the four recognized flags
is rejected with invalid-argument, never success, whatever recognized bits it
also holds; the output is left as it was. -/
theorem os_translate_mem_protection_flags_unrecognized (in_protection out_protection : Nat)
    (h : in_protection &&& (UINT_MAX ^^^ UMF_PROTECTION_RECOGNIZED) ≠ 0) :
    os_translate_mem_protection_flags in_protection out_protection =
        (UMF_RESULT_ERROR_INVALID_ARGUMENT, out_protection) ∧
      (os_translate_mem_protection_flags in_protection out_protection).1 ≠
        UMF_RESULT_SUCCESS := by
  have hrest : protection_rest in_protection ≠ 0 := by
    intro h0
    apply h
    rw [← protection_rest_keeps_rest, h0]
    rfl
  rw [os_translate_mem_protection_flags_eq, if_pos hrest]
  exact ⟨rfl, fun hc => by cases hc⟩

/-- Witness of C2 at the value READ|WRITE with bit 4 added. -/
theorem os_translate_mem_protection_flags_unrecognized_witness :
    os_translate_mem_protection_flags 22 77 = (UMF_RESULT_ERROR_INVALID_ARGUMENT, 77) ∧
      (os_translate_mem_protection_flags 22 77).1 ≠ UMF_RESULT_SUCCESS :=
  os_translate_mem_protection_flags_unrecognized 22 77 (by decide)

/-! ## Purge and mapping: proofs -/

/-- C4: the purge translator maps LAZY to MADV_FREE and FORCE to MADV_DONTNEED,
two distinct codes, so it is injective on the enum; `os_purge` with LAZY issues
`madvise(addr, length, MADV_FREE)` and with FORCE issues
`madvise(addr, length, MADV_DONTNEED)`, on the address and length it was given,
whether assertions are compiled in or not. -/
theorem os_purge_translates_advice {σ : Type} (k : Kernel σ) (ndebug : Bool) (s : σ)
    (addr length : Nat) :
    os_translate_purge_advise UMF_PURGE_LAZY = returned MADV_FREE ∧
    os_translate_purge_advise UMF_PURGE_FORCE = returned MADV_DONTNEED ∧
    MADV_FREE ≠ MADV_DONTNEED ∧
    os_translate_purge_advise UMF_PURGE_LAZY ≠ os_translate_purge_advise UMF_PURGE_FORCE ∧
    os_purge k ndebug s addr length UMF_PURGE_LAZY =
      some (k.madvise s ⟨addr, length, MADV_FREE⟩) ∧
    os_purge k ndebug s addr length UMF_PURGE_FORCE =
      some (k.madvise s ⟨addr, length, MADV_DONTNEED⟩) := by
  refine ⟨by decide, by decide, by decide, by decide, ?_, ?_⟩
  · have h : os_translate_purge_advise UMF_PURGE_LAZY = returned MADV_FREE := by decide
    simp only [os_purge, h]
  · have h : os_translate_purge_advise UMF_PURGE_FORCE = returned MADV_DONTNEED := by decide
    simp only [os_purge, h]

/-- The address `os_mmap` returns, in terms of the address `mmap` returned. -/
theorem os_mmap_fst {σ : Type} (k : Kernel σ) (s : σ) (hint_addr length : Nat) (prot : Int) :
    (os_mmap k s hint_addr length prot).1 =
      if (k.mmap s (os_mmap_request hint_addr length prot)).1 = MAP_FAILED then NULL
      else (k.mmap s (os_mmap_request hint_addr length prot)).1 := by
  unfold os_mmap os_mmap_request
  dsimp only
  split_ifs <;> rfl

/-- The kernel state after `os_mmap` is the state after its one `mmap` call. -/
theorem os_mmap_snd {σ : Type} (k : Kernel σ) (s : σ) (hint_addr length : Nat) (prot : Int) :
    (os_mmap k s hint_addr length prot).2 =
      (k.mmap s (os_mmap_request hint_addr length prot)).2 := by
  unfold os_mmap os_mmap_request
  dsimp only
  split_ifs <;> rfl

/-- C9: `os_mmap` never returns `MAP_FAILED`; it returns `NULL` exactly when the
`mmap` call returned `MAP_FAILED`, and otherwise the address `mmap` returned;
the kernel is entered once, by that single `mmap` call. The kernel is assumed
to keep the POSIX rule that a mapping it places itself (no `MAP_FIXED`) is
never at address 0. -/
theorem os_mmap_null_iff_map_failed {σ : Type} (k : Kernel σ) (s : σ)
    (hint_addr length : Nat) (prot : Int)
    (hposix : ∀ (t : σ) (args : mmap_call),
      args.flags &&& MAP_FIXED = 0 → (k.mmap t args).1 ≠ NULL) :
    ((os_mmap k s hint_addr length prot).1 = NULL ↔
      (k.mmap s (os_mmap_request hint_addr length prot)).1 = MAP_FAILED) ∧
    ((k.mmap s (os_mmap_request hint_addr length prot)).1 ≠ MAP_FAILED →
      (os_mmap k s hint_addr length prot).1 =
        (k.mmap s (os_mmap_request hint_addr length prot)).1) ∧
    (os_mmap k s hint_addr length prot).1 ≠ MAP_FAILED ∧
    (os_mmap k s hint_addr length prot).2 =
      (k.mmap s (os_mmap_request hint_addr length prot)).2 := by
  have hne := hposix s (os_mmap_request hint_addr length prot)
    (by show (MAP_ANONYMOUS ||| MAP_PRIVATE) &&& MAP_FIXED = 0; decide)
  rw [os_mmap_fst, os_mmap_snd]
  by_cases hf : (k.mmap s (os_mmap_request hint_addr length prot)).1 = MAP_FAILED
  · rw [if_pos hf]
    refine ⟨⟨fun _ => hf, fun _ => rfl⟩, fun h => absurd hf h, ?_, rfl⟩
    decide
  · rw [if_neg hf]
    exact ⟨⟨fun h => absurd h hne, fun h => absurd h hf⟩, fun _ => rfl, hf, rfl⟩

/-- Witness of C9: a kernel whose `mmap` always fails; `os_mmap` gives `NULL`
and the log holds the one request. -/
theorem os_mmap_null_iff_map_failed_witness :
    (os_mmap (logging_kernel (fun _ _ => MAP_FAILED) (fun _ _ => 0)) [] 0 4096 3).1 = NULL ∧
    (os_mmap (logging_kernel (fun _ _ => MAP_FAILED) (fun _ _ => 0)) [] 0 4096 3).2 =
      [syscall.mmap (os_mmap_request 0 4096 3)] :=
  have h := os_mmap_null_iff_map_failed
    (logging_kernel (fun _ _ => MAP_FAILED) (fun _ _ => 0)) [] 0 4096 3
    (fun _ _ _ => by show MAP_FAILED ≠ NULL; decide)
  ⟨h.1.2 rfl, h.2.2.2.trans rfl⟩

/-- C10: the one request `os_mmap` makes is anonymous and private: its flags are
exactly `MAP_ANONYMOUS | MAP_PRIVATE`, without `MAP_SHARED`, its file
descriptor is -1 and its offset 0, and the hint address, length and protection
are the caller's. On a kernel that logs its calls, this request is the whole
log. -/
theorem os_mmap_request_anonymous_private (mmap_ret : List syscall → mmap_call → Nat)
    (madvise_ret : List syscall → madvise_call → Int) (hint_addr length : Nat) (prot : Int) :
    (os_mmap (logging_kernel mmap_ret madvise_ret) [] hint_addr length prot).2 =
      [syscall.mmap ⟨hint_addr, length, prot, MAP_ANONYMOUS ||| MAP_PRIVATE, -1, 0⟩] ∧
    (os_mmap_request hint_addr length prot).flags = MAP_ANONYMOUS ||| MAP_PRIVATE ∧
    (os_mmap_request hint_addr length prot).flags &&& MAP_SHARED = 0 ∧
    (os_mmap_request hint_addr length prot).flags &&& MAP_ANONYMOUS = MAP_ANONYMOUS ∧
    (os_mmap_request hint_addr length prot).flags &&& MAP_PRIVATE = MAP_PRIVATE ∧
    (os_mmap_request hint_addr length prot).fd = -1 ∧
    (os_mmap_request hint_addr length prot).offset = 0 ∧
    (os_mmap_request hint_addr length prot).addr = hint_addr ∧
    (os_mmap_request hint_addr length prot).length = length ∧
    (os_mmap_request hint_addr length prot).prot = prot := by
  refine ⟨?_, rfl, ?_, ?_, ?_, rfl, rfl, rfl, rfl, rfl⟩
  · rw [os_mmap_snd]
    rfl
  · show (MAP_ANONYMOUS ||| MAP_PRIVATE) &&& MAP_SHARED = 0
    decide
  · show (MAP_ANONYMOUS ||| MAP_PRIVATE) &&& MAP_ANONYMOUS = MAP_ANONYMOUS
    decide
  · show (MAP_ANONYMOUS ||| MAP_PRIVATE) &&& MAP_PRIVATE = MAP_PRIVATE
    decide


/-! ## Provider creation: proofs -/

/-- The protection translator reports success or invalid-argument, nothing
else. -/
theorem os_translate_mem_protection_flags_result (x out : Nat) :
    os_translate_mem_protection_flags x out = (UMF_RESULT_ERROR_INVALID_ARGUMENT, out) ∨
      os_translate_mem_protection_flags x out = (UMF_RESULT_SUCCESS, protection_acc x) := by
  rw [os_translate_mem_protection_flags_eq]
  split_ifs
  · exact Or.inl rfl
  · exact Or.inr rfl

/-- C5: for each of the four illegal pairings of mode and node list (DEFAULT or
LOCAL with a non-empty list, BIND or INTERLEAVE with an empty list) and every
choice of the other parameters, creation of an OS memory provider returns
invalid-argument and produces no handle. -/
theorem umfMemoryProviderCreate_illegal_pairing (numa_available : Bool)
    (params : umf_os_memory_provider_params_t)
    (h : ((params.numa_mode = UMF_NUMA_MODE_DEFAULT ∨ params.numa_mode = UMF_NUMA_MODE_LOCAL) ∧
        params.numa_list ≠ []) ∨
      ((params.numa_mode = UMF_NUMA_MODE_BIND ∨ params.numa_mode = UMF_NUMA_MODE_INTERLEAVE) ∧
        params.numa_list = [])) :
    umfMemoryProviderCreate (umfOsMemoryProviderOps numa_available) params =
      (UMF_RESULT_ERROR_INVALID_ARGUMENT, none) := by
  have hv : validate_numa_mode params.numa_mode params.numa_list =
      UMF_RESULT_ERROR_INVALID_ARGUMENT := by
    rcases h with ⟨hm | hm, hl⟩ | ⟨hm | hm, hl⟩ <;>
      simp [validate_numa_mode, hm, hl]
  unfold umfMemoryProviderCreate umfOsMemoryProviderOps os_provider_init
  rcases os_translate_mem_protection_flags_result params.protection 0 with hp | hp
  · simp only [hp]
  · simp only [hp, hv]

/-- Witness of C5: BIND with an empty node list, read-write protection. -/
theorem umfMemoryProviderCreate_illegal_pairing_witness :
    umfMemoryProviderCreate (umfOsMemoryProviderOps true)
        ⟨UMF_PROTECTION_READ ||| UMF_PROTECTION_WRITE, UMF_NUMA_MODE_BIND, [], 0⟩ =
      (UMF_RESULT_ERROR_INVALID_ARGUMENT, none) :=
  umfMemoryProviderCreate_illegal_pairing true
    ⟨UMF_PROTECTION_READ ||| UMF_PROTECTION_WRITE, UMF_NUMA_MODE_BIND, [], 0⟩
    (Or.inr ⟨Or.inl rfl, rfl⟩)

/-- C6: every legal pairing of mode and node list (DEFAULT or LOCAL with an
empty list, BIND or INTERLEAVE with a non-empty list, PREFERRED with any list)
is accepted: with protection flags that translate and the NUMA library
available, creation returns success and a handle that holds the
configuration. -/
theorem umfMemoryProviderCreate_legal_pairing (params : umf_os_memory_provider_params_t)
    (hprot : (os_translate_mem_protection_flags params.protection 0).1 = UMF_RESULT_SUCCESS)
    (h : ((params.numa_mode = UMF_NUMA_MODE_DEFAULT ∨ params.numa_mode = UMF_NUMA_MODE_LOCAL) ∧
        params.numa_list = []) ∨
      ((params.numa_mode = UMF_NUMA_MODE_BIND ∨ params.numa_mode = UMF_NUMA_MODE_INTERLEAVE) ∧
        params.numa_list ≠ []) ∨
      params.numa_mode = UMF_NUMA_MODE_PREFERRED) :
    umfMemoryProviderCreate (umfOsMemoryProviderOps true) params =
      (UMF_RESULT_SUCCESS,
        some ⟨(os_translate_mem_protection_flags params.protection 0).2, params.numa_mode,
          params.numa_list, params.part_size⟩) := by
  have hv : validate_numa_mode params.numa_mode params.numa_list = UMF_RESULT_SUCCESS := by
    rcases h with ⟨hm | hm, hl⟩ | ⟨hm | hm, hl⟩ | hm
    · simp [validate_numa_mode, hm, hl]
    · simp [validate_numa_mode, hm, hl]
    · simp [validate_numa_mode, hm, hl]
    · simp [validate_numa_mode, hm, hl]
    · simp [validate_numa_mode, hm]
  unfold umfMemoryProviderCreate umfOsMemoryProviderOps os_provider_init
  rcases os_translate_mem_protection_flags_result params.protection 0 with hp | hp
  · rw [hp] at hprot
    cases hprot
  · simp only [hp, hv]
    simp

/-- Witness of C6: PREFERRED with an empty node list and read-write
protection is accepted. -/
theorem umfMemoryProviderCreate_legal_pairing_witness :
    umfMemoryProviderCreate (umfOsMemoryProviderOps true)
        ⟨UMF_PROTECTION_READ ||| UMF_PROTECTION_WRITE, UMF_NUMA_MODE_PREFERRED, [], 0⟩ =
      (UMF_RESULT_SUCCESS,
        some ⟨PROT_READ ||| PROT_WRITE, UMF_NUMA_MODE_PREFERRED, [], 0⟩) :=
  umfMemoryProviderCreate_legal_pairing
    ⟨UMF_PROTECTION_READ ||| UMF_PROTECTION_WRITE, UMF_NUMA_MODE_PREFERRED, [], 0⟩
    (by decide) (Or.inr (Or.inr rfl))

/-! ## One-flag translation, purge advice and loader: proofs -/

/-- C11: `util_get_symbol_addr` looks the symbol up under `RTLD_DEFAULT` when
the handle is null and under the given handle, unchanged and different from
`RTLD_DEFAULT`, when it is not; it returns what `dlsym` returns (null when the
symbol is not found) after that one lookup; the library name plays no part;
the definition in the header does the same. -/
theorem util_get_symbol_addr_lookup {σ : Type} (dl : DynamicLinker σ) (s : σ) (handle : Nat)
    (symbol : String) (libname other_libname : Option String) :
    util_get_symbol_addr dl s handle symbol libname =
      dl.dlsym s (if handle = NULL then RTLD_DEFAULT else handle) symbol ∧
    (handle = NULL →
      util_get_symbol_addr dl s handle symbol libname = dl.dlsym s RTLD_DEFAULT symbol) ∧
    (handle ≠ NULL →
      util_get_symbol_addr dl s handle symbol libname = dl.dlsym s handle symbol ∧
        handle ≠ RTLD_DEFAULT) ∧
    util_get_symbol_addr dl s handle symbol libname =
      util_get_symbol_addr dl s handle symbol other_libname ∧
    util_get_symbol_addr_header dl s handle symbol libname =
      util_get_symbol_addr dl s handle symbol libname := by
  refine ⟨rfl, ?_, ?_, rfl, rfl⟩
  · intro h
    unfold util_get_symbol_addr
    rw [if_pos h]
  · intro h
    unfold util_get_symbol_addr
    rw [if_neg h]
    exact ⟨rfl, h⟩

/-- Witness of C11: a linker that finds nothing under the default namespace and
the address 4096 under any other handle; a null handle gives null, the handle 7
gives 4096, and the log holds the lookup under the handle asked for. -/
theorem util_get_symbol_addr_lookup_witness :
    util_get_symbol_addr (logging_linker (fun _ _ => 0)
        (fun handle _ => if handle = RTLD_DEFAULT then NULL else 4096)) []
        NULL "numa_available" (some "libnuma.so") = (NULL, [(0, some "numa_available")]) ∧
    util_get_symbol_addr (logging_linker (fun _ _ => 0)
        (fun handle _ => if handle = RTLD_DEFAULT then NULL else 4096)) []
        7 "numa_available" none = (4096, [(7, some "numa_available")]) :=
  ⟨((util_get_symbol_addr_lookup (logging_linker (fun _ _ => 0)
        (fun handle _ => if handle = RTLD_DEFAULT then NULL else 4096)) []
        NULL "numa_available" (some "libnuma.so") none).2.1 rfl).trans rfl,
   ((util_get_symbol_addr_lookup (logging_linker (fun _ _ => 0)
        (fun handle _ => if handle = RTLD_DEFAULT then NULL else 4096)) []
        7 "numa_available" none none).2.2.1 (by decide)).1.trans rfl⟩

/-- C13: the one-flag translator returns success exactly for the four single
flags NONE, READ, WRITE and EXEC, storing PROT_NONE, PROT_READ, PROT_WRITE and
PROT_EXEC; for every other input it returns invalid-argument and leaves the
output as it was. -/
theorem os_translate_mem_protection_one_flag_cases (in_protection out_protection : Nat) :
    os_translate_mem_protection_one_flag UMF_PROTECTION_NONE out_protection =
      (UMF_RESULT_SUCCESS, PROT_NONE) ∧
    os_translate_mem_protection_one_flag UMF_PROTECTION_READ out_protection =
      (UMF_RESULT_SUCCESS, PROT_READ) ∧
    os_translate_mem_protection_one_flag UMF_PROTECTION_WRITE out_protection =
      (UMF_RESULT_SUCCESS, PROT_WRITE) ∧
    os_translate_mem_protection_one_flag UMF_PROTECTION_EXEC out_protection =
      (UMF_RESULT_SUCCESS, PROT_EXEC) ∧
    ((os_translate_mem_protection_one_flag in_protection out_protection).1 =
        UMF_RESULT_SUCCESS ↔
      (in_protection = UMF_PROTECTION_NONE ∨ in_protection = UMF_PROTECTION_READ ∨
        in_protection = UMF_PROTECTION_WRITE ∨ in_protection = UMF_PROTECTION_EXEC)) ∧
    (¬(in_protection = UMF_PROTECTION_NONE ∨ in_protection = UMF_PROTECTION_READ ∨
        in_protection = UMF_PROTECTION_WRITE ∨ in_protection = UMF_PROTECTION_EXEC) →
      os_translate_mem_protection_one_flag in_protection out_protection =
        (UMF_RESULT_ERROR_INVALID_ARGUMENT, out_protection)) := by
  refine ⟨rfl, rfl, rfl, rfl, ?_, ?_⟩
  · unfold os_translate_mem_protection_one_flag
    split_ifs with h1 h2 h3 h4
    · exact ⟨fun _ => Or.inl h1, fun _ => rfl⟩
    · exact ⟨fun _ => Or.inr (Or.inl h2), fun _ => rfl⟩
    · exact ⟨fun _ => Or.inr (Or.inr (Or.inl h3)), fun _ => rfl⟩
    · exact ⟨fun _ => Or.inr (Or.inr (Or.inr h4)), fun _ => rfl⟩
    · constructor
      · intro hc
        cases hc
      · rintro (h | h | h | h)
        · exact absurd h h1
        · exact absurd h h2
        · exact absurd h h3
        · exact absurd h h4
  · intro h
    unfold os_translate_mem_protection_one_flag
    rw [if_neg (fun hc => h (Or.inl hc)), if_neg (fun hc => h (Or.inr (Or.inl hc))),
      if_neg (fun hc => h (Or.inr (Or.inr (Or.inl hc)))),
      if_neg (fun hc => h (Or.inr (Or.inr (Or.inr hc))))]

/-- Witness of C13: zero, the combination READ|WRITE and the unrecognized bit
16 are rejected with the output left at 77. -/
theorem os_translate_mem_protection_one_flag_cases_witness :
    os_translate_mem_protection_one_flag 0 77 = (UMF_RESULT_ERROR_INVALID_ARGUMENT, 77) ∧
    os_translate_mem_protection_one_flag (UMF_PROTECTION_READ ||| UMF_PROTECTION_WRITE) 77 =
      (UMF_RESULT_ERROR_INVALID_ARGUMENT, 77) ∧
    os_translate_mem_protection_one_flag 16 77 = (UMF_RESULT_ERROR_INVALID_ARGUMENT, 77) :=
  ⟨(os_translate_mem_protection_one_flag_cases 0 77).2.2.2.2.2 (by decide),
   (os_translate_mem_protection_one_flag_cases
      (UMF_PROTECTION_READ ||| UMF_PROTECTION_WRITE) 77).2.2.2.2.2 (by decide),
   (os_translate_mem_protection_one_flag_cases 16 77).2.2.2.2.2 (by decide)⟩

/-- C14: for an advice that is LAZY or FORCE the purge translator returns from a
`switch` case with a code other than -1 and does not reach `assert(0)`; the
assertion and the fallback -1 are reached exactly for an advice outside the
enum. -/
theorem os_translate_purge_advise_assert (advise : Int) :
    ((advise = UMF_PURGE_LAZY ∨ advise = UMF_PURGE_FORCE) →
      ∃ code, os_translate_purge_advise advise = returned code ∧ code ≠ -1 ∧
        (code = MADV_FREE ∨ code = MADV_DONTNEED)) ∧
    ((∃ fallback, os_translate_purge_advise advise = assert_reached fallback) ↔
      (advise ≠ UMF_PURGE_LAZY ∧ advise ≠ UMF_PURGE_FORCE)) ∧
    (os_translate_purge_advise advise = returned (-1) → False) := by
  unfold os_translate_purge_advise
  refine ⟨?_, ?_, ?_⟩
  · rintro (h | h)
    · rw [if_pos h]
      exact ⟨MADV_FREE, rfl, by decide, Or.inl rfl⟩
    · by_cases h1 : advise = UMF_PURGE_LAZY
      · rw [if_pos h1]
        exact ⟨MADV_FREE, rfl, by decide, Or.inl rfl⟩
      · rw [if_neg h1, if_pos h]
        exact ⟨MADV_DONTNEED, rfl, by decide, Or.inr rfl⟩
  · split_ifs with h1 h2
    · exact ⟨fun ⟨_, hc⟩ => (by cases hc), fun hc => absurd h1 hc.1⟩
    · exact ⟨fun ⟨_, hc⟩ => (by cases hc), fun hc => absurd h2 hc.2⟩
    · exact ⟨fun _ => ⟨h1, h2⟩, fun _ => ⟨-1, rfl⟩⟩
  · split_ifs with h1 h2
    · intro hc
      exact absurd (purge_advise_outcome.returned.inj hc) (by decide)
    · intro hc
      exact absurd (purge_advise_outcome.returned.inj hc) (by decide)
    · intro hc
      cases hc

/-- Witness of C14: FORCE returns MADV_DONTNEED from its `switch` case. -/
theorem os_translate_purge_advise_assert_witness :
    ∃ code, os_translate_purge_advise UMF_PURGE_FORCE = returned code ∧ code ≠ -1 ∧
      (code = MADV_FREE ∨ code = MADV_DONTNEED) :=
  (os_translate_purge_advise_assert UMF_PURGE_FORCE).1 (Or.inr rfl)

/-- C15: `util_open_library` calls `dlopen` once, with the file name it was
given and flags that always hold `RTLD_LAZY` and hold `RTLD_GLOBAL` exactly when
bit `UMF_UTIL_OPEN_LIBRARY_GLOBAL` of `userFlags` is set; the flags are
`RTLD_LAZY` or `RTLD_LAZY | RTLD_GLOBAL`, so no other bit of `userFlags` has a
part; the result of `dlopen` is returned as it is; the inline definition of
the header computes the same flags and makes the same call. -/
theorem util_open_library_dlopen_flags {σ : Type} (dl : DynamicLinker σ) (s : σ)
    (filename : Option String) (userFlags other : Int) :
    util_open_library dl s filename userFlags =
      dl.dlopen s filename (util_open_library_flags userFlags) ∧
    (Int.land other UMF_UTIL_OPEN_LIBRARY_GLOBAL =
        Int.land userFlags UMF_UTIL_OPEN_LIBRARY_GLOBAL →
      util_open_library dl s filename other = util_open_library dl s filename userFlags) ∧
    Int.land (util_open_library_flags userFlags) RTLD_LAZY = RTLD_LAZY ∧
    (Int.land (util_open_library_flags userFlags) RTLD_GLOBAL = RTLD_GLOBAL ↔
      Int.land userFlags UMF_UTIL_OPEN_LIBRARY_GLOBAL ≠ 0) ∧
    (Int.land (util_open_library_flags userFlags) RTLD_GLOBAL = 0 ↔
      Int.land userFlags UMF_UTIL_OPEN_LIBRARY_GLOBAL = 0) ∧
    (util_open_library_flags userFlags = RTLD_LAZY ∨
      util_open_library_flags userFlags = Int.lor RTLD_LAZY RTLD_GLOBAL) ∧
    util_open_library_header_flags userFlags = util_open_library_flags userFlags ∧
    util_open_library_header dl s filename userFlags =
      util_open_library dl s filename userFlags := by
  refine ⟨rfl, ?_, ?_, ?_, ?_, ?_, rfl, rfl⟩
  · intro h
    unfold util_open_library util_open_library_flags
    rw [h]
  · unfold util_open_library_flags
    split_ifs <;> decide
  · unfold util_open_library_flags
    split_ifs with h
    · exact ⟨fun _ => h, fun _ => by decide⟩
    · exact ⟨fun hc => absurd hc (by decide), fun hc => absurd hc h⟩
  · unfold util_open_library_flags
    split_ifs with h
    · exact ⟨fun hc => absurd hc (by decide), fun hc => absurd hc h⟩
    · exact ⟨fun _ => not_not.mp h, fun _ => by decide⟩
  · unfold util_open_library_flags
    split_ifs
    · exact Or.inr rfl
    · exact Or.inl rfl

/-- Witness of C15: the user flags 3 and 1 agree on the GLOBAL bit, so a library
is opened with the same flags, `RTLD_LAZY | RTLD_GLOBAL`, under both. -/
theorem util_open_library_dlopen_flags_witness :
    util_open_library (logging_linker (fun _ _ => 4096) (fun _ _ => 0)) []
        (some "libnuma.so.1") 3 =
      util_open_library (logging_linker (fun _ _ => 4096) (fun _ _ => 0)) []
        (some "libnuma.so.1") 1 ∧
    util_open_library (logging_linker (fun _ _ => 4096) (fun _ _ => 0)) []
        (some "libnuma.so.1") 1 = (4096, [(257, some "libnuma.so.1")]) :=
  ⟨(util_open_library_dlopen_flags (logging_linker (fun _ _ => 4096) (fun _ _ => 0)) []
      (some "libnuma.so.1") 1 3).2.1 (by decide),
    by decide⟩

end UMF
